import Mathlib

/-!
Verification of the RAG evaluation utilities (`src/utils/evaluation.py` and
`src/utils/langchain_evaluation.py`) as a shallow embedding in Lean 4.

The repository's functions delegate all computation to external services: an
LLM (`ChatOpenAI`) and a caller-supplied retriever.  We model both as oracle
functions returning `Except String _` (an `Except.error` models a raised
Python exception propagating out of the call).  Each embedded function
additionally returns the ordered list of observable events it performs
(LLM invocations, retriever invocations, `print` calls), so that claims about
call counts, call order, call arguments and console output become statements
about the event trace.
-/

namespace RagEval

/-- Equality of `Except` values is decidable when it is on both sides. -/
instance {ε α : Type} [DecidableEq ε] [DecidableEq α] : DecidableEq (Except ε α)
  | Except.error a, Except.error b =>
    if h : a = b then Decidable.isTrue (congrArg Except.error h)
    else Decidable.isFalse fun hc => h (Except.error.inj hc)
  | Except.error _, Except.ok _ => Decidable.isFalse fun hc => Except.noConfusion hc
  | Except.ok _, Except.error _ => Decidable.isFalse fun hc => Except.noConfusion hc
  | Except.ok a, Except.ok b =>
    if h : a = b then Decidable.isTrue (congrArg Except.ok h)
    else Decidable.isFalse fun hc => h (Except.ok.inj hc)

/-- A LangChain `Document`; the evaluator only reads `page_content`. -/
structure Document where
  page_content : String
deriving DecidableEq, Repr

/-- A role-tagged chat message, as passed to `llm.invoke([...])`. -/
structure Message where
  role : String
  content : String
deriving DecidableEq, Repr

/-- Observable events performed by `rag_evaluation`.
`questionGenCall` is an invocation of the question-generation chain,
`evalCall` an invocation of the rating chain (both ultimately hit the same
`ChatOpenAI` model, with the shown formatted prompt), `retrieverInvoke` a
`retriever.invoke(question)` call, `printLine` a `print(...)`, and
`metricInvoke` stands for an invocation of one of the module-level deepeval
metric objects (which, as proved below, never occurs). -/
inductive Event where
  | questionGenCall (prompt : String)
  | retrieverInvoke (query : String)
  | evalCall (prompt : String)
  | printLine (line : String)
  | metricInvoke (name : String)
deriving DecidableEq, Repr

/-- The external collaborators of `rag_evaluation`: the `ChatOpenAI` LLM
behind both chains (input: the formatted prompt string; `StrOutputParser`
makes the output a plain string) and the caller-supplied retriever.
`Except.error e` models the call raising exception `e`. -/
structure Oracles where
  llm : String → Except String String
  retriever : String → Except String (List Document)

/-- Python's `str.split(sep)` for a single-character separator, on the
character list of the string: occurrences of `sep` delimit segments, empty
segments are kept, and the empty string yields one empty segment. -/
def pySplitChar (sep : Char) : List Char → List (List Char)
  | [] => [[]]
  | c :: cs =>
    let rest := pySplitChar sep cs
    if c = sep then [] :: rest
    else (c :: rest.headD []) :: rest.tail

/-- Python's `s.split("\n")`: split `s` at every newline character, keeping
empty segments (so the result never merges or drops blank lines and its
length is one more than the number of newlines, never validated). -/
def pySplitNewlines (s : String) : List String :=
  (pySplitChar '\n' s.data).map String.mk

/-- Python's `"\n".join(xs)`. -/
def pyJoinNewlines (xs : List String) : String :=
  String.intercalate "\n" xs

/-- `deepeval.test_case.LLMTestCaseParams` members used by the module. -/
inductive LLMTestCaseParams where
  | EXPECTED_OUTPUT
  | ACTUAL_OUTPUT
deriving DecidableEq, Repr

/-- Configuration record of a `deepeval` `GEval` metric object. -/
structure GEval where
  name : String
  model : String
  evaluation_steps : List String
  evaluation_params : List LLMTestCaseParams
deriving DecidableEq, Repr

/-- Configuration record of the threshold-style `deepeval` metric objects
(`FaithfulnessMetric`, `ContextualRelevancyMetric`, `AnswerRelevancyMetric`
share this shape: threshold, model, include_reason).  The Python `0.7`
threshold is modelled as the rational `7/10`. -/
structure ThresholdMetric where
  threshold : ℚ
  model : String
  include_reason : Bool
deriving DecidableEq, Repr

/-- `correctness_metric` from `evaluation.py` (module level, built at load). -/
def correctness_metric : GEval :=
  ⟨"correctness", "gpt-4o-mini",
    ["Determine whether the actual output is factually correct based on the expected output."],
    [LLMTestCaseParams.EXPECTED_OUTPUT, LLMTestCaseParams.ACTUAL_OUTPUT]⟩

/-- `faithfullness_metric` from `evaluation.py` (module level, built at load). -/
def faithfullness_metric : ThresholdMetric :=
  ⟨7/10, "gpt-4o-mini", true⟩

/-- `retrieval_relevance_metric` from `evaluation.py` (module level). -/
def retrieval_relevance_metric : ThresholdMetric :=
  ⟨7/10, "gpt-4o-mini", true⟩

/-- `answer_relevance_metric` from `evaluation.py` (module level). -/
def answer_relevance_metric : ThresholdMetric :=
  ⟨7/10, "gpt-4o-mini", true⟩

/-- The module-level state of `evaluation.py` that `rag_evaluation` could
read: the four metric objects constructed at import time. -/
structure MetricsModule where
  correctness_metric : GEval
  faithfullness_metric : ThresholdMetric
  retrieval_relevance_metric : ThresholdMetric
  answer_relevance_metric : ThresholdMetric
deriving DecidableEq, Repr

/-- The value of the module state right after `evaluation.py` is imported. -/
def evaluationModule : MetricsModule :=
  ⟨correctness_metric, faithfullness_metric, retrieval_relevance_metric,
    answer_relevance_metric⟩

/-- The question-generation prompt after `PromptTemplate` substitution of
`num_questions` and `topic` into
`"Generate {num_questions} diverse test questions about about {topic}."`. -/
def question_gen_format (num_questions : Nat) (topic : String) : String :=
  "Generate " ++ toString num_questions ++ " diverse test questions about about "
    ++ topic ++ "."

/-- The rating prompt (`eval_prompt` of `rag_evaluation`) after
`PromptTemplate` substitution of `question` and `context`. -/
def eval_prompt_format (question context : String) : String :=
  "\n    Evaluate the following retrieval results for the question.\n    Question: "
    ++ question
    ++ "\n    Retrieved Documents: "
    ++ context
    ++ "\n    \n    Rate on a scale of 1-5 (5 being the best) for:\n    1. Relevance: How relevant is the retrieved information to the question?\n    2. Completeness: Does the context contain all necessary information?\n    3. Conciseness: Is the retrieved context focused and free of irrelevant information?\n    \n    Provide ratings in JSON format:\n    "

/-- The `context_text` computed for a question inside the loop:
`"\n".join([doc.page_content for doc in context])`. -/
def context_text_of (docs : List Document) : String :=
  pyJoinNewlines (docs.map Document.page_content)

/-- The progress line printed for loop index `i` (0-based):
`f"Evaluated question {i+1}/{num_questions}:"`. -/
def progress_line (i num_questions : Nat) : String :=
  "Evaluated question " ++ toString (i+1) ++ "/" ++ toString num_questions ++ ":"

/-- The body of `rag_evaluation`'s `for i, question in enumerate(questions)`
loop, at starting index `i` with accumulator `results`, over the remaining
`questions`.  Returns the events performed, the final `results` list and
`Except.ok ()` on normal completion or the first uncaught exception.
The `results.append(eval_result)` line is commented out in the source, so
`results` is threaded through unchanged. -/
def rag_eval_loop (o : Oracles) (num_questions i : Nat) (results : List String) :
    List String → List Event × List String × Except String Unit
  | [] => ([], results, Except.ok ())
  | question :: rest =>
    match o.retriever question with
    | Except.error e => ([Event.retrieverInvoke question], results, Except.error e)
    | Except.ok context =>
      let ctext := context_text_of context
      let prompt := eval_prompt_format question ctext
      match o.llm prompt with
      | Except.error e =>
        ([Event.retrieverInvoke question, Event.evalCall prompt], results, Except.error e)
      | Except.ok eval_result =>
        let prints : List Event :=
          [Event.printLine (progress_line i num_questions),
           Event.printLine ("Question: " ++ question),
           Event.printLine ("Context: " ++ ctext),
           Event.printLine ("Evaluation: " ++ eval_result),
           Event.printLine "-------------------\n"]
        let tail := rag_eval_loop o num_questions (i+1) results rest
        (Event.retrieverInvoke question :: Event.evalCall prompt :: prints ++ tail.1,
          tail.2.1, tail.2.2)

/-- The report that the commented-out `return` of `rag_evaluation` would
build: `{"questions": questions, "results": results}`. -/
structure RagReport where
  questions : List String
  results : List String
deriving DecidableEq, Repr

/-- `rag_evaluation(retriever, num_questions, eval_topic)` from
`evaluation.py`.  `env` is the module-level state (the four metric objects)
visible to the function body.  Returns the event trace, the final local
`results` list, and the function's outcome: `Except.error e` when an
uncaught exception `e` propagates, otherwise `Except.ok none` since the
`return {...}` at the end is commented out and the function falls off the
end returning `None`. -/
def rag_evaluation (env : MetricsModule) (o : Oracles) (num_questions : Nat)
    (eval_topic : String) :
    List Event × List String × Except String (Option RagReport) :=
  let gen_prompt := question_gen_format num_questions eval_topic
  match o.llm gen_prompt with
  | Except.error e => ([Event.questionGenCall gen_prompt], [], Except.error e)
  | Except.ok resp =>
    let questions := pySplitNewlines resp
    let r := rag_eval_loop o num_questions 0 [] questions
    (Event.questionGenCall gen_prompt :: r.1, r.2.1,
      match r.2.2 with
      | Except.error e => Except.error e
      | Except.ok () => Except.ok none)

/-- Number of `retriever.invoke` events in a trace. -/
def countRetrieverCalls (tr : List Event) : Nat :=
  (tr.filter fun e => match e with | Event.retrieverInvoke _ => true | _ => false).length

/-- Number of question-generation chain invocations in a trace. -/
def countQuestionGenCalls (tr : List Event) : Nat :=
  (tr.filter fun e => match e with | Event.questionGenCall _ => true | _ => false).length

/-- Number of metric-object invocations in a trace. -/
def countMetricCalls (tr : List Event) : Nat :=
  (tr.filter fun e => match e with | Event.metricInvoke _ => true | _ => false).length

/-- The queries of the `retriever.invoke` events of a trace, in order. -/
def retrieverQueries (tr : List Event) : List String :=
  tr.filterMap fun e => match e with | Event.retrieverInvoke q => some q | _ => none

/-- The formatted prompts of the rating-chain invocations of a trace, in order. -/
def evalPrompts (tr : List Event) : List String :=
  tr.filterMap fun e => match e with | Event.evalCall p => some p | _ => none

/-- The `print` lines of a trace, in order. -/
def printedLines (tr : List Event) : List String :=
  tr.filterMap fun e => match e with | Event.printLine l => some l | _ => none

/-! ## `langchain_evaluation.py` -/

/-- The `CorrectnessGrade` TypedDict: the structured-output schema of the
correctness grader ("explaination" is the field's spelling in the source). -/
structure CorrectnessGrade where
  explaination : String
  correct : Bool
deriving DecidableEq, Repr

/-- The `inputs` dict of `correctness`; only `inputs['question']` is read. -/
structure QuestionDict where
  question : String
deriving DecidableEq, Repr

/-- The `outputs` / `ref_outputs` dicts of `correctness`; only `['answer']`
is read from each. -/
structure AnswerDict where
  answer : String
deriving DecidableEq, Repr

/-- The `correctness_prompt` rubric string of `correctness` (sent as the
system message). -/
def correctness_prompt : String :=
  "\n    You will be given a QUESTION, a GROUND TRUTH (correct) ANSWER, and a RESPONSE.\n    Here is the evaluation criteria to follow:\n    (1) Grade the RESPONSE based ONLY on their factual accuracy relative to the GROUND TRUTH ANSWER.\n    (2) Ensure that the RESPONSE does not contain any conflicting statements.\n    (3) It is OK if the RESPONSE contains more information than the GROUND TRUTH ANSWER, as long as it is factually relative to the GROUND TRUTH ANSWER.\n\n    Correctness:\n    A correctness of True means that the RESPONSE meets all the criteria.\n    A correctness of False means that the RESPONSE does not meet all the criteria.\n\n    Explain your reasoning in a step-by-step manner to ensure your reasoning and conclusion are correct.\n    Avoid simply stating the correct answer at the outset.\n    "

/-- The `context` f-string built inside `correctness`. -/
def correctness_context (inputs : QuestionDict) (outputs ref_outputs : AnswerDict) :
    String :=
  "\n    QUESTION: " ++ inputs.question
    ++ "\n    GROUND TRUTH ANSWER: " ++ ref_outputs.answer
    ++ "\n    RESPONSE: " ++ outputs.answer
    ++ "\n    "

/-- The message list `correctness` sends to its structured-output grader. -/
def correctness_messages (inputs : QuestionDict) (outputs ref_outputs : AnswerDict) :
    List Message :=
  [⟨"system", correctness_prompt⟩,
   ⟨"user", correctness_context inputs outputs ref_outputs⟩]

/-- `correctness(inputs, outputs, ref_outputs)` from `langchain_evaluation.py`.
`grader_llm` is the `ChatOpenAI(...).with_structured_output(CorrectnessGrade,
method="json_schema", strict=True)` oracle: it answers a message list with a
`CorrectnessGrade` or raises.  The function returns `grade["correct"]` — a
bare boolean, not the grade record. -/
def correctness (grader_llm : List Message → Except String CorrectnessGrade)
    (inputs : QuestionDict) (outputs ref_outputs : AnswerDict) :
    Except String Bool :=
  match grader_llm (correctness_messages inputs outputs ref_outputs) with
  | Except.error e => Except.error e
  | Except.ok grade => Except.ok grade.correct

/-- The `QA_generator` TypedDict: the structured-output schema of
`qa_generator`, with exactly the fields `question` and `answer`. -/
structure QA_generator where
  question : String
  answer : String
deriving DecidableEq, Repr

/-- The `instruct_prompt` system message of `qa_generator`. -/
def qa_instruct_prompt : String :=
  "\n    You are an expert evaluator specialized in creating high-quality question-answer pairs for information retrieval and reading comprehension tasks. \n    Your goal is to generate diverse, natural, and challenging questions that test understanding of the given context.\n\n    Follow these principles:\n    1. Generate questions that require precise understanding of the context\n    2. Vary question types (what, why, how, when, etc.)\n    3. Target different cognitive levels (recall, understanding, analysis)\n    4. Ensure questions are unambiguous and have clear, verifiable answers\n    "

/-- The `generation_prompt` of `qa_generator` after `.format(context=context)`
(the Python literal opens with `\"\"\"\"`, so the text starts with a quote
character). -/
def qa_generation_prompt_format (context : String) : String :=
  "\"\n    Create a natural and challenging question-answer pair from the given context that would be valuable for evaluating language models.\n\n    Question Requirements:\n    1. Natural Language: Frame the question as a real user would ask on a search engine or conversational AI\n    2. Specificity: Question must be answerable with specific information from the context\n    3. Clarity: Question should be unambiguous with only one correct interpretation\n    4. Depth: Prefer questions that require understanding rather than simple keyword matching\n    5. Independence: Question must stand alone without referencing the context or source\n    6. Conciseness: Both question and answer should be concise and to the point\n\n    Answer Requirements:\n    1. Accuracy: Must be supported by the context\n    2. Completeness: Include all necessary information to fully answer the question\n    3. Conciseness: Exclude irrelevant details\n    4. Self-contained: Answer should make sense without needing additional context\n\n    AVOID:\n    - Questions that can be answered without the context\n    - Questions with multiple possible correct answers\n    - Questions that require information beyond the context\n    - Meta-references like \"according to the passage\" or \"in the context\"\n    - Yes/no questions unless they test critical understanding\n    - Overly simple questions that only require word matching\n\n    Output Format:\n    Question: <your question>\n    Answer: <your answer>\n\n    Context:\n    "
    ++ context ++ "\n    "

/-- The message list `qa_generator` sends to its structured-output LLM. -/
def qa_messages (context : String) : List Message :=
  [⟨"system", qa_instruct_prompt⟩,
   ⟨"user", qa_generation_prompt_format context⟩]

/-- `qa_generator(context)` from `langchain_evaluation.py`.  `llm` is the
`ChatOpenAI(...).with_structured_output(QA_generator)` oracle.  The first
component records every message list sent to the LLM (the function makes
exactly one such call); the second is the function's result: the oracle's
schema-constrained output returned unmodified, or the propagated exception. -/
def qa_generator (llm : List Message → Except String QA_generator)
    (context : String) : List (List Message) × Except String QA_generator :=
  let messages := qa_messages context
  ([messages], llm messages)

/-! ## Helper lemmas about the evaluation loop -/

/-- The `results` accumulator passes through the loop unchanged (the
`results.append(eval_result)` line is commented out), on every path. -/
theorem rag_eval_loop_results (o : Oracles) (nq : Nat) :
    ∀ (qs : List String) (i : Nat) (res : List String),
      (rag_eval_loop o nq i res qs).2.1 = res := by
  intro qs
  induction qs with
  | nil => intro i res; rfl
  | cons q rest ih =>
    intro i res
    cases hr : o.retriever q with
    | error e => simp [rag_eval_loop, hr]
    | ok ctx =>
      cases hl : o.llm (eval_prompt_format q (context_text_of ctx)) with
      | error e => simp [rag_eval_loop, hr, hl]
      | ok ev => simpa [rag_eval_loop, hr, hl] using ih (i+1) res

/-- The loop never invokes the question-generation chain. -/
theorem rag_eval_loop_no_questionGen (o : Oracles) (nq : Nat) :
    ∀ (qs : List String) (i : Nat) (res : List String),
      countQuestionGenCalls (rag_eval_loop o nq i res qs).1 = 0 := by
  intro qs
  induction qs with
  | nil => intro i res; rfl
  | cons q rest ih =>
    intro i res
    cases hr : o.retriever q with
    | error e => simp [rag_eval_loop, hr, countQuestionGenCalls]
    | ok ctx =>
      cases hl : o.llm (eval_prompt_format q (context_text_of ctx)) with
      | error e => simp [rag_eval_loop, hr, hl, countQuestionGenCalls]
      | ok ev =>
        simpa [rag_eval_loop, hr, hl, countQuestionGenCalls] using ih (i+1) res

/-- The loop never invokes any of the module-level metric objects. -/
theorem rag_eval_loop_no_metric (o : Oracles) (nq : Nat) :
    ∀ (qs : List String) (i : Nat) (res : List String),
      countMetricCalls (rag_eval_loop o nq i res qs).1 = 0 := by
  intro qs
  induction qs with
  | nil => intro i res; rfl
  | cons q rest ih =>
    intro i res
    cases hr : o.retriever q with
    | error e => simp [rag_eval_loop, hr, countMetricCalls]
    | ok ctx =>
      cases hl : o.llm (eval_prompt_format q (context_text_of ctx)) with
      | error e => simp [rag_eval_loop, hr, hl, countMetricCalls]
      | ok ev =>
        simpa [rag_eval_loop, hr, hl, countMetricCalls] using ih (i+1) res

/-- When the loop completes without an exception, it queried the retriever
exactly once per question, in question order. -/
theorem rag_eval_loop_queries (o : Oracles) (nq : Nat) :
    ∀ (qs : List String) (i : Nat) (res : List String),
      (rag_eval_loop o nq i res qs).2.2 = Except.ok () →
      retrieverQueries (rag_eval_loop o nq i res qs).1 = qs := by
  intro qs
  induction qs with
  | nil => intro i res _; rfl
  | cons q rest ih =>
    intro i res hok
    cases hr : o.retriever q with
    | error e => simp [rag_eval_loop, hr] at hok
    | ok ctx =>
      cases hl : o.llm (eval_prompt_format q (context_text_of ctx)) with
      | error e => simp [rag_eval_loop, hr, hl] at hok
      | ok ev =>
        have hok2 : (rag_eval_loop o nq (i+1) res rest).2.2 = Except.ok () := by
          simpa [rag_eval_loop, hr, hl] using hok
        simpa [rag_eval_loop, hr, hl, retrieverQueries] using ih (i+1) res hok2

/-- A question is processed without an exception: the retriever call and the
subsequent rating-chain call on it both succeed. -/
def questionSucceeds (o : Oracles) (q : String) : Prop :=
  ∃ docs, o.retriever q = Except.ok docs ∧
    ∃ r, o.llm (eval_prompt_format q (context_text_of docs)) = Except.ok r

/-- Processing question `q` raises exception `e`: either the retriever call
raises it, or the retriever succeeds and the rating-chain call raises it. -/
def questionFailsWith (o : Oracles) (q : String) (e : String) : Prop :=
  o.retriever q = Except.error e ∨
    ∃ docs, o.retriever q = Except.ok docs ∧
      o.llm (eval_prompt_format q (context_text_of docs)) = Except.error e

/-- When the loop completes without an exception, the `j`-th rating-chain
prompt is the rating template applied to the `j`-th question and the
newline-join of its retrieved documents' `page_content`, in retriever order. -/
theorem rag_eval_loop_evalPrompts (o : Oracles) (nq : Nat) :
    ∀ (qs : List String) (i : Nat) (res : List String),
      (rag_eval_loop o nq i res qs).2.2 = Except.ok () →
      ∀ (j : Nat) (q : String), qs[j]? = some q →
        ∃ docs, o.retriever q = Except.ok docs ∧
          (evalPrompts (rag_eval_loop o nq i res qs).1)[j]? =
            some (eval_prompt_format q (context_text_of docs)) := by
  intro qs
  induction qs with
  | nil => intro i res _ j q hj; simp at hj
  | cons q0 rest ih =>
    intro i res hok j q hj
    cases hr : o.retriever q0 with
    | error e => simp [rag_eval_loop, hr] at hok
    | ok ctx =>
      cases hl : o.llm (eval_prompt_format q0 (context_text_of ctx)) with
      | error e => simp [rag_eval_loop, hr, hl] at hok
      | ok ev =>
        have hok2 : (rag_eval_loop o nq (i+1) res rest).2.2 = Except.ok () := by
          simpa [rag_eval_loop, hr, hl] using hok
        have hP : evalPrompts (rag_eval_loop o nq i res (q0 :: rest)).1 =
            eval_prompt_format q0 (context_text_of ctx) ::
              evalPrompts (rag_eval_loop o nq (i+1) res rest).1 := by
          simp [rag_eval_loop, hr, hl, evalPrompts]
        cases j with
        | zero =>
          simp only [List.getElem?_cons_zero, Option.some.injEq] at hj
          subst hj
          exact ⟨ctx, hr, by simp [hP]⟩
        | succ j =>
          simp only [List.getElem?_cons_succ] at hj
          obtain ⟨docs, hdocs, hidx⟩ := ih (i+1) res hok2 j q hj
          exact ⟨docs, hdocs, by simp [hP, hidx]⟩

/-- When the loop completes without an exception, the progress line printed
for the `j`-th remaining question carries loop index `i + j` and the
requested `num_questions` as denominator. -/
theorem rag_eval_loop_progress (o : Oracles) (nq : Nat) :
    ∀ (qs : List String) (i : Nat) (res : List String),
      (rag_eval_loop o nq i res qs).2.2 = Except.ok () →
      ∀ j, j < qs.length →
        Event.printLine (progress_line (i + j) nq) ∈ (rag_eval_loop o nq i res qs).1 := by
  intro qs
  induction qs with
  | nil => intro i res _ j hj; simp at hj
  | cons q0 rest ih =>
    intro i res hok j hj
    cases hr : o.retriever q0 with
    | error e => simp [rag_eval_loop, hr] at hok
    | ok ctx =>
      cases hl : o.llm (eval_prompt_format q0 (context_text_of ctx)) with
      | error e => simp [rag_eval_loop, hr, hl] at hok
      | ok ev =>
        have hok2 : (rag_eval_loop o nq (i+1) res rest).2.2 = Except.ok () := by
          simpa [rag_eval_loop, hr, hl] using hok
        cases j with
        | zero => simp [rag_eval_loop, hr, hl]
        | succ j =>
          have hj2 : j < rest.length := by simpa using hj
          have hmem := ih (i+1) res hok2 j hj2
          have harith : i + (j+1) = (i+1) + j := by omega
          rw [harith]
          simp only [rag_eval_loop, hr, hl]
          simp only [List.mem_cons, List.mem_append]
          tauto

/-- If every question before `q` is processed successfully and processing `q`
raises `e`, the loop result is `Except.error e` and the retriever was queried
exactly on the prior questions and `q` — never on the later ones. -/
theorem rag_eval_loop_first_failure (o : Oracles) (nq : Nat) (e : String) :
    ∀ (qs1 : List String) (q : String) (qs2 : List String) (i : Nat) (res : List String),
      (∀ q1 ∈ qs1, questionSucceeds o q1) →
      questionFailsWith o q e →
      (rag_eval_loop o nq i res (qs1 ++ q :: qs2)).2.2 = Except.error e ∧
      retrieverQueries (rag_eval_loop o nq i res (qs1 ++ q :: qs2)).1 = qs1 ++ [q] := by
  intro qs1
  induction qs1 with
  | nil =>
    intro q qs2 i res _ hfail
    rcases hfail with hr | ⟨docs, hr, hl⟩
    · constructor <;> simp [rag_eval_loop, hr, retrieverQueries]
    · constructor <;> simp [rag_eval_loop, hr, hl, retrieverQueries]
  | cons q1 rest ih =>
    intro q qs2 i res hsucc hfail
    obtain ⟨docs, hr, r, hl⟩ := hsucc q1 (by simp)
    obtain ⟨h1, h2⟩ := ih q qs2 (i+1) res (fun x hx => hsucc x (by simp [hx])) hfail
    constructor
    · simpa [rag_eval_loop, hr, hl] using h1
    · simpa [rag_eval_loop, hr, hl, retrieverQueries] using h2

/-- In every trace, the number of retriever invocations is the number of
recorded retriever queries. -/
theorem countRetrieverCalls_eq_queries_length (tr : List Event) :
    countRetrieverCalls tr = (retrieverQueries tr).length := by
  induction tr with
  | nil => rfl
  | cons e t ih =>
    cases e <;> simp [countRetrieverCalls, retrieverQueries, List.filter_cons,
      List.filterMap_cons] <;>
      simpa [countRetrieverCalls, retrieverQueries] using ih

/-- Prepending the question-generation event adds one to the
question-generation count. -/
theorem countQuestionGenCalls_cons_gen (p : String) (tr : List Event) :
    countQuestionGenCalls (Event.questionGenCall p :: tr) =
      countQuestionGenCalls tr + 1 := by
  simp [countQuestionGenCalls]

/-- Prepending the question-generation event leaves the retriever count. -/
theorem countRetrieverCalls_cons_gen (p : String) (tr : List Event) :
    countRetrieverCalls (Event.questionGenCall p :: tr) = countRetrieverCalls tr := by
  simp [countRetrieverCalls]

/-- Prepending the question-generation event leaves the metric count. -/
theorem countMetricCalls_cons_gen (p : String) (tr : List Event) :
    countMetricCalls (Event.questionGenCall p :: tr) = countMetricCalls tr := by
  simp [countMetricCalls]

/-- When the question-generation call succeeds with `resp`, the trace of
`rag_evaluation` is that call followed by the loop trace over the
newline-split of `resp`. -/
theorem rag_evaluation_trace (env : MetricsModule) (o : Oracles) (nq : Nat)
    (t resp : String) (hgen : o.llm (question_gen_format nq t) = Except.ok resp) :
    (rag_evaluation env o nq t).1 =
      Event.questionGenCall (question_gen_format nq t) ::
        (rag_eval_loop o nq 0 [] (pySplitNewlines resp)).1 := by
  simp [rag_evaluation, hgen]

/-- When the question-generation call succeeds with `resp`, the outcome of
`rag_evaluation` maps the loop's outcome: an exception propagates, and
normal completion yields `none`. -/
theorem rag_evaluation_outcome (env : MetricsModule) (o : Oracles) (nq : Nat)
    (t resp : String) (hgen : o.llm (question_gen_format nq t) = Except.ok resp) :
    (rag_evaluation env o nq t).2.2 =
      match (rag_eval_loop o nq 0 [] (pySplitNewlines resp)).2.2 with
      | Except.error e => Except.error e
      | Except.ok () => Except.ok none := by
  simp [rag_evaluation, hgen]

/-- When `rag_evaluation` completes with `Except.ok none`, the loop itself
completed without an exception. -/
theorem rag_evaluation_loop_ok (env : MetricsModule) (o : Oracles) (nq : Nat)
    (t resp : String) (hgen : o.llm (question_gen_format nq t) = Except.ok resp)
    (hok : (rag_evaluation env o nq t).2.2 = Except.ok none) :
    (rag_eval_loop o nq 0 [] (pySplitNewlines resp)).2.2 = Except.ok () := by
  rw [rag_evaluation_outcome env o nq t resp hgen] at hok
  cases hL : (rag_eval_loop o nq 0 [] (pySplitNewlines resp)).2.2 with
  | error e => rw [hL] at hok; simp at hok
  | ok u => cases u; rfl

/-- On every path (generation failure, loop failure, or completion), the
local `results` list of `rag_evaluation` ends up empty. -/
theorem rag_evaluation_results_nil (env : MetricsModule) (o : Oracles) (nq : Nat)
    (t : String) : (rag_evaluation env o nq t).2.1 = [] := by
  cases hg : o.llm (question_gen_format nq t) with
  | error e => simp [rag_evaluation, hg]
  | ok resp => simp [rag_evaluation, hg, rag_eval_loop_results]

/-! ## Concrete runs used as witnesses and counterexamples -/

/-- A run in which the LLM answers the 5-question generation prompt with an
enumerated list followed by a trailing newline — six newline-separated
segments — and rates everything else; the retriever returns no documents. -/
def sixLineOracles : Oracles :=
  ⟨fun p => if p = question_gen_format 5 "climate change"
      then Except.ok "1. q1\n2. q2\n3. q3\n4. q4\n5. q5\n"
      else Except.ok "ratings",
   fun _ => Except.ok []⟩

/-- A run in which the LLM answers the generation prompt with exactly five
newline-separated questions; the retriever returns two documents. -/
def fiveLineOracles : Oracles :=
  ⟨fun p => if p = question_gen_format 5 "climate change"
      then Except.ok "q1\nq2\nq3\nq4\nq5"
      else Except.ok "ratings",
   fun _ => Except.ok [⟨"alpha"⟩, ⟨"beta"⟩]⟩

/-- A run in which the LLM answers the generation prompt with a leading
blank line and an interior blank line (four segments, two of them empty). -/
def blankLineOracles : Oracles :=
  ⟨fun p => if p = question_gen_format 5 "climate change"
      then Except.ok "\nQ1\n\nQ2"
      else Except.ok "ratings",
   fun _ => Except.ok []⟩

/-- A run in which the retriever raises on the second generated question. -/
def failingRetrieverOracles : Oracles :=
  ⟨fun p => if p = question_gen_format 5 "climate change"
      then Except.ok "q1\nq2\nq3"
      else Except.ok "ratings",
   fun q => if q = "q2" then Except.error "ConnectionError" else Except.ok []⟩

/-- A correctness grader producing a fixed grade with one explanation. -/
def graderA : List Message → Except String CorrectnessGrade :=
  fun _ => Except.ok ⟨"The response restates the reference answer.", true⟩

/-- A correctness grader producing the same verdict with a different
explanation. -/
def graderB : List Message → Except String CorrectnessGrade :=
  fun _ => Except.ok ⟨"The response matches on factual content.", true⟩

/-! ## Claims -/

/-- C1 (counterexample): with `num_questions = 5`, when the LLM answers the
question-generation prompt with an enumerated list ending in a newline, the
response splits into six segments and `rag_evaluation` performs six
`retriever.invoke` calls — not five — after its single question-generation
call; the claimed count of exactly 5 retrieval calls is false. -/
theorem C1_counterexample :
    countQuestionGenCalls
        (rag_evaluation evaluationModule sixLineOracles 5 "climate change").1 = 1 ∧
    countRetrieverCalls
        (rag_evaluation evaluationModule sixLineOracles 5 "climate change").1 = 6 ∧
    countRetrieverCalls
        (rag_evaluation evaluationModule sixLineOracles 5 "climate change").1 ≠ 5 := by
  decide

/-- C1 (amended): on any run of `rag_evaluation` whose question-generation
call returns `resp` and which completes without an exception, exactly one
question-generation call is issued and exactly one `retriever.invoke` call
per parsed question — that is, one per segment of `resp` split on newlines —
which equals `num_questions` exactly when `resp` has that many lines. -/
theorem C1_call_counts (env : MetricsModule) (o : Oracles) (nq : Nat)
    (t resp : String)
    (hgen : o.llm (question_gen_format nq t) = Except.ok resp)
    (hok : (rag_evaluation env o nq t).2.2 = Except.ok none) :
    countQuestionGenCalls (rag_evaluation env o nq t).1 = 1 ∧
    countRetrieverCalls (rag_evaluation env o nq t).1 =
      (pySplitNewlines resp).length := by
  have hloop := rag_evaluation_loop_ok env o nq t resp hgen hok
  rw [rag_evaluation_trace env o nq t resp hgen]
  constructor
  · rw [countQuestionGenCalls_cons_gen, rag_eval_loop_no_questionGen]
  · rw [countRetrieverCalls_cons_gen, countRetrieverCalls_eq_queries_length,
      rag_eval_loop_queries o nq (pySplitNewlines resp) 0 [] hloop]

/-- C1 (witness): on a run whose generation response has exactly five lines,
`rag_evaluation` issues one question-generation call and five retriever
calls. -/
theorem C1_witness :
    countQuestionGenCalls
        (rag_evaluation evaluationModule fiveLineOracles 5 "climate change").1 = 1 ∧
    countRetrieverCalls
        (rag_evaluation evaluationModule fiveLineOracles 5 "climate change").1 = 5 := by
  have h := C1_call_counts evaluationModule fiveLineOracles 5 "climate change"
    "q1\nq2\nq3\nq4\nq5" (by decide) (by decide)
  exact ⟨h.1, by rw [h.2]; decide⟩

/-- C2: whenever `rag_evaluation` completes without an exception, its return
value is `none`: the structured-report return is commented out, so no report
object is produced. -/
theorem C2_returns_none (env : MetricsModule) (o : Oracles) (nq : Nat)
    (t : String) (r : Option RagReport)
    (h : (rag_evaluation env o nq t).2.2 = Except.ok r) : r = none := by
  cases hg : o.llm (question_gen_format nq t) with
  | error e => simp [rag_evaluation, hg] at h
  | ok resp =>
    rw [rag_evaluation_outcome env o nq t resp hg] at h
    cases hL : (rag_eval_loop o nq 0 [] (pySplitNewlines resp)).2.2 with
    | error e => rw [hL] at h; simp at h
    | ok u => cases u; rw [hL] at h; simpa using h.symm

/-- C2 (witness): a concrete successful run returns `Except.ok none`. -/
theorem C2_witness :
    (rag_evaluation evaluationModule fiveLineOracles 5 "climate change").2.2 =
      Except.ok none ∧
    (none : Option RagReport) = none := by
  refine ⟨by decide,
    C2_returns_none evaluationModule fiveLineOracles 5 "climate change" none (by decide)⟩

/-- C3 (counterexample): `correctness` does not return a GradeResult record:
two graders whose grades differ in the explanation field (and agree on the
verdict) produce identical return values — the bare boolean `true` — so the
returned value contains no explanation string. -/
theorem C3_counterexample :
    correctness graderA ⟨"What is the capital of France?"⟩
        ⟨"The capital of France is Paris."⟩ ⟨"Paris"⟩ = Except.ok true ∧
    correctness graderB ⟨"What is the capital of France?"⟩
        ⟨"The capital of France is Paris."⟩ ⟨"Paris"⟩ = Except.ok true ∧
    (⟨"The response restates the reference answer.", true⟩ : CorrectnessGrade) ≠
      ⟨"The response matches on factual content.", true⟩ := by
  decide

/-- C3 (amended): for every (question, reference answer, candidate answer)
triple, `correctness` obtains from its grader a schema-constrained
`CorrectnessGrade` record containing both an explanation string and a
correctness boolean, but returns only the boolean `correct` field of that
record to its caller. -/
theorem C3_returns_correct_only
    (g : List Message → Except String CorrectnessGrade)
    (inputs : QuestionDict) (outputs ref_outputs : AnswerDict)
    (grade : CorrectnessGrade)
    (h : g (correctness_messages inputs outputs ref_outputs) = Except.ok grade) :
    correctness g inputs outputs ref_outputs = Except.ok grade.correct := by
  simp [correctness, h]

/-- C3 (witness): on a concrete triple with a grader returning a grade whose
verdict is `true`, `correctness` returns `Except.ok true`. -/
theorem C3_witness :
    correctness graderA ⟨"What is the capital of France?"⟩
      ⟨"The capital of France is Paris."⟩ ⟨"Paris"⟩ = Except.ok true :=
  C3_returns_correct_only graderA ⟨"What is the capital of France?"⟩
    ⟨"The capital of France is Paris."⟩ ⟨"Paris"⟩
    ⟨"The response restates the reference answer.", true⟩ rfl

/-- C4: on any run completing without an exception, the questions iterated
over (the retriever queries, in order) are exactly the LLM's raw generation
response split on newline characters — kept verbatim, with empty segments
retained and no check that the count equals `num_questions`. -/
theorem C4_raw_newline_split (env : MetricsModule) (o : Oracles) (nq : Nat)
    (t resp : String)
    (hgen : o.llm (question_gen_format nq t) = Except.ok resp)
    (hok : (rag_evaluation env o nq t).2.2 = Except.ok none) :
    retrieverQueries (rag_evaluation env o nq t).1 = pySplitNewlines resp := by
  have hloop := rag_evaluation_loop_ok env o nq t resp hgen hok
  rw [rag_evaluation_trace env o nq t resp hgen]
  simpa [retrieverQueries] using
    rag_eval_loop_queries o nq (pySplitNewlines resp) 0 [] hloop

/-- C4 (witness): a generation response with a leading and an interior blank
line yields the four verbatim segments (two of them empty), and the run
still completes even though the count differs from the requested 5. -/
theorem C4_witness :
    retrieverQueries
        (rag_evaluation evaluationModule blankLineOracles 5 "climate change").1 =
      ["", "Q1", "", "Q2"] ∧
    (pySplitNewlines "\nQ1\n\nQ2").length ≠ 5 := by
  have h := C4_raw_newline_split evaluationModule blankLineOracles 5 "climate change"
    "\nQ1\n\nQ2" (by decide) (by decide)
  exact ⟨by rw [h]; decide, by decide⟩

/-- C5: on any run completing without an exception, the `j`-th rating prompt
is built from the `j`-th generated question and exactly the newline-join of
the `page_content` of the documents returned by the retriever for that
question, in the retriever's order. -/
theorem C5_eval_context_join (env : MetricsModule) (o : Oracles) (nq : Nat)
    (t resp : String)
    (hgen : o.llm (question_gen_format nq t) = Except.ok resp)
    (hok : (rag_evaluation env o nq t).2.2 = Except.ok none)
    (j : Nat) (q : String) (hq : (pySplitNewlines resp)[j]? = some q) :
    ∃ docs, o.retriever q = Except.ok docs ∧
      (evalPrompts (rag_evaluation env o nq t).1)[j]? =
        some (eval_prompt_format q
          (pyJoinNewlines (docs.map Document.page_content))) := by
  have hloop := rag_evaluation_loop_ok env o nq t resp hgen hok
  obtain ⟨docs, hd, hidx⟩ :=
    rag_eval_loop_evalPrompts o nq (pySplitNewlines resp) 0 [] hloop j q hq
  refine ⟨docs, hd, ?_⟩
  rw [rag_evaluation_trace env o nq t resp hgen]
  simpa [evalPrompts, context_text_of] using hidx

/-- C5 (witness): in a concrete run whose retriever returns the documents
"alpha" and "beta", the second rating prompt is the rating template applied
to the second question and the context "alpha\nbeta". -/
theorem C5_witness :
    (evalPrompts
        (rag_evaluation evaluationModule fiveLineOracles 5 "climate change").1)[1]? =
      some (eval_prompt_format "q2" "alpha\nbeta") := by
  obtain ⟨docs, hd, hidx⟩ := C5_eval_context_join evaluationModule fiveLineOracles 5
    "climate change" "q1\nq2\nq3\nq4\nq5" (by decide) (by decide) 1 "q2" (by decide)
  have h1 : Except.ok ([⟨"alpha"⟩, ⟨"beta"⟩] : List Document) = Except.ok docs := hd
  injection h1 with h2
  rw [← h2] at hidx
  have hj : pyJoinNewlines
      (([⟨"alpha"⟩, ⟨"beta"⟩] : List Document).map Document.page_content) =
      "alpha\nbeta" := by decide
  rw [hj] at hidx
  exact hidx

/-- C6: nothing is caught: if every question before `q` is processed
successfully and the retriever or the rating LLM call raises `e` on `q`,
then `rag_evaluation` terminates with that exception, the retriever is never
invoked on the remaining questions, and no partial results survive. -/
theorem C6_error_propagation (env : MetricsModule) (o : Oracles) (nq : Nat)
    (t resp : String) (qs1 : List String) (q : String) (qs2 : List String)
    (e : String)
    (hgen : o.llm (question_gen_format nq t) = Except.ok resp)
    (hsplit : pySplitNewlines resp = qs1 ++ q :: qs2)
    (hsucc : ∀ q1 ∈ qs1, questionSucceeds o q1)
    (hfail : questionFailsWith o q e) :
    (rag_evaluation env o nq t).2.2 = Except.error e ∧
    retrieverQueries (rag_evaluation env o nq t).1 = qs1 ++ [q] ∧
    (rag_evaluation env o nq t).2.1 = [] := by
  obtain ⟨h1, h2⟩ := rag_eval_loop_first_failure o nq e qs1 q qs2 0 [] hsucc hfail
  refine ⟨?_, ?_, rag_evaluation_results_nil env o nq t⟩
  · rw [rag_evaluation_outcome env o nq t resp hgen, hsplit, h1]
  · rw [rag_evaluation_trace env o nq t resp hgen, hsplit]
    simpa [retrieverQueries] using h2

/-- C6 (witness): a retriever that raises "ConnectionError" on the second of
three generated questions aborts the run with that error after exactly the
first two retriever calls, leaving the results list empty. -/
theorem C6_witness :
    (rag_evaluation evaluationModule failingRetrieverOracles 5 "climate change").2.2 =
      Except.error "ConnectionError" ∧
    retrieverQueries
        (rag_evaluation evaluationModule failingRetrieverOracles 5 "climate change").1 =
      ["q1", "q2"] ∧
    (rag_evaluation evaluationModule failingRetrieverOracles 5 "climate change").2.1 =
      [] := by
  have h := C6_error_propagation evaluationModule failingRetrieverOracles 5
    "climate change" "q1\nq2\nq3" ["q1"] "q2" ["q3"] "ConnectionError"
    (by decide) (by decide)
    (fun q1 hq1 => by
      simp only [List.mem_singleton] at hq1
      subst hq1
      exact ⟨[], by decide, "ratings", by decide⟩)
    (Or.inl (by decide))
  exact ⟨h.1, by rw [h.2.1]; rfl, h.2.2⟩

/-- C7: for every context string, `qa_generator` sends exactly one message
list to its LLM — the one constrained to the `QA_generator` schema whose
only fields are `question` and `answer` — and returns the LLM's
schema-constrained output (or propagated exception) unmodified. -/
theorem C7_single_call (llm : List Message → Except String QA_generator)
    (context : String) :
    (qa_generator llm context).1 = [qa_messages context] ∧
    (qa_generator llm context).2 = llm (qa_messages context) :=
  ⟨rfl, rfl⟩

/-- C8: the four module-level metric objects (grouped in
`evaluationModule`) are dead configuration for `rag_evaluation`: its entire
behaviour is the same under any module state, and its trace contains no
metric invocation. -/
theorem C8_metrics_untouched (env : MetricsModule) (o : Oracles) (nq : Nat)
    (t : String) :
    rag_evaluation env o nq t = rag_evaluation evaluationModule o nq t ∧
    countMetricCalls (rag_evaluation env o nq t).1 = 0 := by
  refine ⟨rfl, ?_⟩
  cases hg : o.llm (question_gen_format nq t) with
  | error e => simp [rag_evaluation, hg, countMetricCalls]
  | ok resp =>
    rw [rag_evaluation_trace env o nq t resp hg, countMetricCalls_cons_gen,
      rag_eval_loop_no_metric]

/-- C9: on every execution of `rag_evaluation` — normal or aborted — the
local `results` accumulator ends up empty: the append of the per-question
rating is commented out, so no rating outlives its loop iteration. -/
theorem C9_results_empty (env : MetricsModule) (o : Oracles) (nq : Nat)
    (t : String) : (rag_evaluation env o nq t).2.1 = [] :=
  rag_evaluation_results_nil env o nq t

/-- C10: on any run completing without an exception, the progress line
printed for the `j`-th parsed question is
`"Evaluated question (j+1)/num_questions:"` — its denominator is the
requested `num_questions`, not the number of parsed questions, for every
`j` up to the parsed count. -/
theorem C10_progress_denominator (env : MetricsModule) (o : Oracles) (nq : Nat)
    (t resp : String)
    (hgen : o.llm (question_gen_format nq t) = Except.ok resp)
    (hok : (rag_evaluation env o nq t).2.2 = Except.ok none)
    (j : Nat) (hj : j < (pySplitNewlines resp).length) :
    Event.printLine (progress_line j nq) ∈ (rag_evaluation env o nq t).1 := by
  have hloop := rag_evaluation_loop_ok env o nq t resp hgen hok
  have h := rag_eval_loop_progress o nq (pySplitNewlines resp) 0 [] hloop j hj
  rw [rag_evaluation_trace env o nq t resp hgen]
  exact List.mem_cons_of_mem _ (by simpa using h)

/-- C10 (witness): when the generation response splits into six segments but
`num_questions = 5`, the run prints "Evaluated question 6/5:" — the printed
index exceeds the denominator. -/
theorem C10_witness :
    Event.printLine "Evaluated question 6/5:" ∈
      (rag_evaluation evaluationModule sixLineOracles 5 "climate change").1 ∧
    5 < (pySplitNewlines "1. q1\n2. q2\n3. q3\n4. q4\n5. q5\n").length := by
  have h := C10_progress_denominator evaluationModule sixLineOracles 5
    "climate change" "1. q1\n2. q2\n3. q3\n4. q4\n5. q5\n" (by decide) (by decide)
    5 (by decide)
  have h2 : progress_line 5 5 = "Evaluated question 6/5:" := by decide
  exact ⟨by rw [← h2]; exact h, by decide⟩

end RagEval
